import Mathlib

/- Verification of the real-estate-drone code base: rotation arithmetic and
   waypoint execution of the mission planner (src/autonomous/mission.py),
   the grid and orbital flight-pattern generators
   (src/photogrammetry/grid_flight.py, src/missions/simulator/grid_flight_sim.py),
   and the backend wrapper (src/tello_wrapper.py). -/

namespace Drone

/-- Python int() conversion on an exact rational: truncation toward zero. -/
def qtrunc (q : ℚ) : ℤ := if 0 ≤ q then ⌊q⌋ else ⌈q⌉

/- ----------------------------------------------------------------
   Grid flight generator, src/photogrammetry/grid_flight.py lines 68-74
   and src/missions/simulator/grid_flight_sim.py lines 33-39
   (the two copies are line-for-line identical in this logic).
   ---------------------------------------------------------------- -/

/-- Embeds grid_flight.py lines 68-71: photo_spacing = int(grid_spacing * (1 - overlap)),
then clamped up to the minimum of 10. -/
def photo_spacing (grid_spacing : ℤ) (overlap : ℚ) : ℤ :=
  let p := qtrunc ((grid_spacing : ℚ) * (1 - overlap))
  if p < 10 then 10 else p

/-- Embeds grid_flight.py line 74: photos_per_cell = max(1, int(grid_spacing / photo_spacing)),
with true division as in Python 3. -/
def photos_per_cell (grid_spacing : ℤ) (overlap : ℚ) : ℤ :=
  max 1 (qtrunc ((grid_spacing : ℚ) / (photo_spacing grid_spacing overlap : ℚ)))

/-- Follows the wording of the spec (section 3, PatternConfig), for comparison
with the code: photo_spacing = max(10, round(grid_spacing * (1 - overlap))). -/
def specPhotoSpacing (grid_spacing : ℤ) (overlap : ℚ) : ℤ :=
  max 10 (round ((grid_spacing : ℚ) * (1 - overlap)))

lemma photo_spacing_ge_ten (gs : ℤ) (ov : ℚ) : 10 ≤ photo_spacing gs ov := by
  unfold photo_spacing
  dsimp only
  split <;> omega

/- ----------------------------------------------------------------
   Movement commands of the grid generator, with their displacement
   in the launch frame (x = forward axis, y = right axis), in cm.
   ---------------------------------------------------------------- -/

/-- Commands issued by the grid generator: planar moves and photo captures. -/
inductive GCmd where
  | forward (d : ℤ)
  | back (d : ℤ)
  | left (d : ℤ)
  | right (d : ℤ)
  | photo
  deriving DecidableEq, Repr

/-- Displacement of a single grid command in the launch frame. -/
def GCmd.disp : GCmd → ℤ × ℤ
  | .forward d => (d, 0)
  | .back d => (-d, 0)
  | .left d => (0, -d)
  | .right d => (0, d)
  | .photo => (0, 0)

/-- Accumulated displacement of a command list. -/
def netDisp (l : List GCmd) : ℤ × ℤ :=
  l.foldl (fun acc c => (acc.1 + c.disp.1, acc.2 + c.disp.2)) (0, 0)

/-- Number of photo captures in a command list. -/
def photoCount (l : List GCmd) : ℕ :=
  l.countP (fun c => c = GCmd.photo)

/-- Embeds the per-cell photo raster, grid_flight.py lines 146-179: one photo
when photos_per_cell = 1, otherwise the double loop over (i, j) with a
micro-step forward whenever i is positive and a micro-step right whenever j is
positive, a photo at every iteration, then the two retrace moves. -/
def cellCmds (ppc : ℕ) (ps : ℤ) : List GCmd :=
  if ppc = 1 then [GCmd.photo]
  else
    ((List.range ppc).flatMap fun i =>
      (List.range ppc).flatMap fun j =>
        (if 0 < i then [GCmd.forward ps] else []) ++
        (if 0 < j then [GCmd.right ps] else []) ++
        [GCmd.photo]) ++
    [GCmd.back ((ppc - 1 : ℕ) * ps), GCmd.left ((ppc - 1 : ℕ) * ps)]

/-- Embeds the traversal move for one grid position, grid_flight.py lines
120-144: the very first cell moves by its absolute offset, the first cell of a
new row moves one spacing sideways, any other cell moves one spacing along the
row in the direction of the row. -/
def gridMove (n : ℕ) (s : ℤ) (row col : ℕ) : List GCmd :=
  if row = 0 ∧ col = 0 then
    [GCmd.forward ((col : ℤ) * s), GCmd.right ((row : ℤ) * s)]
  else if col = (if row % 2 = 1 then n - 1 else 0) then
    [GCmd.right s]
  else if row % 2 = 1 then
    [GCmd.back s]
  else
    [GCmd.forward s]

/-- Column visiting order of a row, grid_flight.py lines 114-115: even rows go
left to right, odd rows right to left. -/
def rowCols (n : ℕ) (row : ℕ) : List ℕ :=
  if row % 2 = 1 then (List.range n).reverse else List.range n

/-- Commands of the full boustrophedon traversal, grid_flight.py lines 110-179. -/
def gridTraverse (n : ℕ) (s : ℤ) (ppc : ℕ) (ps : ℤ) : List GCmd :=
  (List.range n).flatMap fun row =>
    (rowCols n row).flatMap fun col =>
      gridMove n s row col ++ cellCmds ppc ps

/-- Embeds grid_flight.py line 188: the final x offset the code believes it has. -/
def gridHomeX (n : ℕ) (s : ℤ) : ℤ :=
  if n % 2 = 0 then ((n : ℤ) - 1) * s else 0

/-- Embeds grid_flight.py line 189: the final y offset the code believes it has. -/
def gridHomeY (n : ℕ) (s : ℤ) : ℤ :=
  ((n : ℤ) - 1) * s

/-- Embeds the return-to-start moves, grid_flight.py lines 192-200. -/
def gridReturn (n : ℕ) (s : ℤ) : List GCmd :=
  (if 0 < gridHomeX n s then [GCmd.back (gridHomeX n s)] else []) ++
  (if 0 < gridHomeY n s then [GCmd.left (gridHomeY n s)] else [])

/-- Commands of the whole grid flight after takeoff: traversal then return. -/
def gridFull (n : ℕ) (s : ℤ) (ppc : ℕ) (ps : ℤ) : List GCmd :=
  gridTraverse n s ppc ps ++ gridReturn n s

/-- C5 (amended): for positive grid_spacing and overlap in [0,1), the code
derives photo_spacing = max(10, trunc(grid_spacing * (1 - overlap))) - with
truncation, not rounding - and photos_per_cell =
max(1, floor(grid_spacing / photo_spacing)); in particular grid_spacing = 50
with overlap = 0.8 yields photo_spacing = 10 and photos_per_cell = 5. -/
theorem c5_photo_spacing_formula :
    (∀ (gs : ℤ) (ov : ℚ), 0 < gs → 0 ≤ ov → ov < 1 →
      photo_spacing gs ov = max 10 ⌊(gs : ℚ) * (1 - ov)⌋ ∧
      photos_per_cell gs ov = max 1 ⌊(gs : ℚ) / (photo_spacing gs ov : ℚ)⌋) ∧
    photo_spacing 50 (4/5) = 10 ∧ photos_per_cell 50 (4/5) = 5 := by
  refine ⟨fun gs ov hgs h0 h1 => ?_,
    by norm_num [photo_spacing, qtrunc],
    by norm_num [photos_per_cell, photo_spacing, qtrunc]⟩
  have hnn : (0:ℚ) ≤ (gs:ℚ) * (1 - ov) :=
    mul_nonneg (by exact_mod_cast hgs.le) (by linarith)
  have htr : qtrunc ((gs:ℚ) * (1 - ov)) = ⌊(gs:ℚ) * (1 - ov)⌋ := by
    unfold qtrunc
    rw [if_pos hnn]
  constructor
  · unfold photo_spacing
    dsimp only
    rw [htr]
    split <;> omega
  · have hps : (10:ℤ) ≤ photo_spacing gs ov := photo_spacing_ge_ten gs ov
    have hnn2 : (0:ℚ) ≤ (gs:ℚ) / (photo_spacing gs ov : ℚ) := by
      apply div_nonneg (by exact_mod_cast hgs.le)
      exact_mod_cast (by omega : (0:ℤ) ≤ photo_spacing gs ov)
    unfold photos_per_cell qtrunc
    rw [if_pos hnn2]

/-- Witness for C5 at grid_spacing = 50, overlap = 4/5. -/
theorem c5_witness :
    photo_spacing 50 (4/5) = max 10 ⌊(50 : ℚ) * (1 - 4/5)⌋ ∧
    photos_per_cell 50 (4/5) = max 1 ⌊(50 : ℚ) / (photo_spacing 50 (4/5) : ℚ)⌋ :=
  c5_photo_spacing_formula.1 50 (4/5) (by norm_num) (by norm_num) (by norm_num)

/-- C5 counterexample: at grid_spacing = 30, overlap = 0.41, the code truncates
30 * 0.59 = 17.7 to 17, while the claimed formula rounds it to 18. -/
theorem c5_round_counterexample :
    photo_spacing 30 (41/100) = 17 ∧ specPhotoSpacing 30 (41/100) = 18 ∧
    photo_spacing 30 (41/100) ≠ specPhotoSpacing 30 (41/100) := by
  have h1 : photo_spacing 30 (41/100) = 17 := by
    norm_num [photo_spacing, qtrunc]
  have h2 : specPhotoSpacing 30 (41/100) = 18 := by
    norm_num [specPhotoSpacing, round_eq]
  refine ⟨h1, h2, ?_⟩
  rw [h1, h2]
  decide

/-- C6 (code bug): with grid_spacing = 20 and overlap = 0.5 the derived values
are photo_spacing = 10 and photos_per_cell = 2; the 2 x 2 raster does capture
4 photos, but its micro-steps plus the retrace leave a net displacement of
(10, 10) cm instead of returning to the grid intersection (net (0, 0)),
contradicting the code's own comment "Return to grid intersection for next
move". -/
theorem c6_raster_drift :
    photo_spacing 20 (1/2) = 10 ∧ photos_per_cell 20 (1/2) = 2 ∧
    photoCount (cellCmds 2 10) = 4 ∧
    netDisp (cellCmds 2 10) = (10, 10) ∧ netDisp (cellCmds 2 10) ≠ (0, 0) := by
  refine ⟨by norm_num [photo_spacing, qtrunc],
    by norm_num [photos_per_cell, photo_spacing, qtrunc], by decide, by decide,
    by decide⟩

/-- C7 (code bug): for the default 3 x 3 grid with spacing 50 (one photo per
cell), the issued traversal commands accumulate a displacement of (100, 100),
the last row having been traversed forward; but the code computes its offset
with the parity inverted, believes it is at (0, 100), issues only a single
left move, and therefore ends the mission displaced by (100, 0) instead of at
the origin it claims to return to. -/
theorem c7_return_mismatch :
    netDisp (gridTraverse 3 50 1 50) = (100, 100) ∧
    (gridHomeX 3 50, gridHomeY 3 50) = (0, 100) ∧
    gridReturn 3 50 = [GCmd.left 100] ∧
    netDisp (gridFull 3 50 1 50) = (100, 0) ∧
    netDisp (gridFull 3 50 1 50) ≠ (0, 0) := by
  decide

/- ----------------------------------------------------------------
   Backend wrapper, src/tello_wrapper.py.
   ---------------------------------------------------------------- -/

/-- Outcome of a call into the underlying driver: the call either completes
or raises an exception. -/
inductive DriverOutcome where
  | ok
  | fail
  deriving DecidableEq

/-- Wrapper state: simulator_mode is fixed at construction, connected is
tracked by connect and disconnect (tello_wrapper.py lines 61 and 88). -/
structure WState where
  connected : Bool
  simulatorMode : Bool
  deriving DecidableEq

/-- Observable behaviour of one wrapper method call: the driver verb chosen,
whether the driver was invoked, whether an exception escaped to the caller,
whether an except-branch printed an error, and the Python return value
(Option.none models Python None, returned by a method with no return
statement). -/
structure CallLog where
  verb : String
  driverCalled : Bool
  propagated : Bool
  errorLogged : Bool
  retval : Option Bool
  deriving DecidableEq

namespace TelloWrapper

/-- Embeds TelloWrapper.connect, tello_wrapper.py lines 157-189: simulator
mode just marks connected; real mode calls the driver, and a failure is
caught, marks disconnected and returns False. -/
def connect (s : WState) (d : DriverOutcome) : Bool × WState :=
  if s.simulatorMode then (true, { s with connected := true })
  else
    match d with
    | .ok => (true, { s with connected := true })
    | .fail => (false, { s with connected := false })

/-- Embeds TelloWrapper.move_forward, tello_wrapper.py lines 296-309: no
state validation, a driver call in a try block whose failure is only
printed, and no return value. -/
def move_forward (s : WState) (d : DriverOutcome) : CallLog :=
  { verb := if s.simulatorMode then "fly_forward" else "move_forward",
    driverCalled := true, propagated := false,
    errorLogged := d == DriverOutcome.fail, retval := none }

/-- Embeds TelloWrapper.move_back, tello_wrapper.py lines 311-324. -/
def move_back (s : WState) (d : DriverOutcome) : CallLog :=
  { verb := if s.simulatorMode then "fly_backward" else "move_back",
    driverCalled := true, propagated := false,
    errorLogged := d == DriverOutcome.fail, retval := none }

/-- Embeds TelloWrapper.move_left, tello_wrapper.py lines 326-339. -/
def move_left (s : WState) (d : DriverOutcome) : CallLog :=
  { verb := if s.simulatorMode then "fly_left" else "move_left",
    driverCalled := true, propagated := false,
    errorLogged := d == DriverOutcome.fail, retval := none }

/-- Embeds TelloWrapper.move_right, tello_wrapper.py lines 341-354. -/
def move_right (s : WState) (d : DriverOutcome) : CallLog :=
  { verb := if s.simulatorMode then "fly_right" else "move_right",
    driverCalled := true, propagated := false,
    errorLogged := d == DriverOutcome.fail, retval := none }

/-- Embeds TelloWrapper.move_up, tello_wrapper.py lines 356-369. -/
def move_up (s : WState) (d : DriverOutcome) : CallLog :=
  { verb := if s.simulatorMode then "fly_up" else "move_up",
    driverCalled := true, propagated := false,
    errorLogged := d == DriverOutcome.fail, retval := none }

/-- Embeds TelloWrapper.move_down, tello_wrapper.py lines 371-384. -/
def move_down (s : WState) (d : DriverOutcome) : CallLog :=
  { verb := if s.simulatorMode then "fly_down" else "move_down",
    driverCalled := true, propagated := false,
    errorLogged := d == DriverOutcome.fail, retval := none }

/-- Embeds TelloWrapper.rotate_clockwise, tello_wrapper.py lines 386-399. -/
def rotate_clockwise (s : WState) (d : DriverOutcome) : CallLog :=
  { verb := if s.simulatorMode then "yaw_right" else "rotate_clockwise",
    driverCalled := true, propagated := false,
    errorLogged := d == DriverOutcome.fail, retval := none }

/-- Embeds TelloWrapper.rotate_counter_clockwise, tello_wrapper.py lines
401-414. -/
def rotate_counter_clockwise (s : WState) (d : DriverOutcome) : CallLog :=
  { verb := if s.simulatorMode then "yaw_left" else "rotate_counter_clockwise",
    driverCalled := true, propagated := false,
    errorLogged := d == DriverOutcome.fail, retval := none }

/-- Embeds TelloWrapper.takeoff, tello_wrapper.py lines 209-226: when not
connected it first attempts connect (whose failure is swallowed inside
connect), then calls the driver takeoff regardless, returning True on
completion and False when the driver raised. -/
def takeoff (s : WState) (dConnect dTakeoff : DriverOutcome) : CallLog × WState :=
  let s1 := if s.connected then s else (connect s dConnect).2
  ({ verb := "takeoff", driverCalled := true, propagated := false,
     errorLogged := dTakeoff == DriverOutcome.fail,
     retval := some (dTakeoff == DriverOutcome.ok) }, s1)

/-- Embeds TelloWrapper.land, tello_wrapper.py lines 228-242: no state
validation, returns True on completion and False when the driver raised. -/
def land (s : WState) (d : DriverOutcome) : CallLog :=
  { verb := "land", driverCalled := true, propagated := false,
    errorLogged := d == DriverOutcome.fail, retval := some (d == DriverOutcome.ok) }

end TelloWrapper

/-- C9 (amended): none of the eight motion and rotation primitives validates
connection or airborne state; each forwards to the selected driver
unconditionally, catches a driver failure without propagating it, logs it,
and returns None rather than a boolean. Only takeoff and land return boolean
success indicators, and takeoff reacts to a missing connection by attempting
to connect rather than failing. -/
theorem c9_wrapper_contract (s : WState) (d dc : DriverOutcome) :
    (∀ m ∈ [TelloWrapper.move_forward s d, TelloWrapper.move_back s d,
        TelloWrapper.move_left s d, TelloWrapper.move_right s d,
        TelloWrapper.move_up s d, TelloWrapper.move_down s d,
        TelloWrapper.rotate_clockwise s d,
        TelloWrapper.rotate_counter_clockwise s d],
      m.driverCalled = true ∧ m.propagated = false ∧ m.retval = none ∧
      m.errorLogged = (d == DriverOutcome.fail)) ∧
    ((TelloWrapper.takeoff s dc d).1.propagated = false ∧
      (TelloWrapper.takeoff s dc d).1.retval = some (d == DriverOutcome.ok) ∧
      (TelloWrapper.takeoff s dc d).2.connected =
        (s.connected || (TelloWrapper.connect s dc).2.connected)) ∧
    ((TelloWrapper.land s d).propagated = false ∧
      (TelloWrapper.land s d).retval = some (d == DriverOutcome.ok)) := by
  refine ⟨?_, ⟨rfl, rfl, ?_⟩, rfl, rfl⟩
  · intro m hm
    simp only [List.mem_cons, List.not_mem_nil, or_false] at hm
    rcases hm with h | h | h | h | h | h | h | h <;> subst h <;>
      exact ⟨rfl, rfl, rfl, rfl⟩
  · unfold TelloWrapper.takeoff
    rcases hc : s.connected <;> simp [hc]

/-- Witness for C9 on a connected real-mode wrapper with a failing driver
call to move_forward. -/
theorem c9_wrapper_contract_witness :
    (TelloWrapper.move_forward ⟨true, false⟩ DriverOutcome.fail).driverCalled
        = true ∧
    (TelloWrapper.move_forward ⟨true, false⟩ DriverOutcome.fail).propagated
        = false ∧
    (TelloWrapper.move_forward ⟨true, false⟩ DriverOutcome.fail).retval
        = none ∧
    (TelloWrapper.move_forward ⟨true, false⟩ DriverOutcome.fail).errorLogged
        = (DriverOutcome.fail == DriverOutcome.fail) :=
  (c9_wrapper_contract ⟨true, false⟩ DriverOutcome.fail DriverOutcome.ok).1
    (TelloWrapper.move_forward ⟨true, false⟩ DriverOutcome.fail)
    (List.mem_cons_self _ _)

/-- C9 counterexample: calling move_forward on a disconnected real-mode
wrapper with a failing driver raises nothing (in particular no
InvalidStateError blocks the driver call) and returns None, not a boolean
failure indicator; and takeoff on a disconnected wrapper silently connects
and reports success instead of failing. -/
theorem c9_no_validation_counterexample :
    (TelloWrapper.move_forward ⟨false, false⟩ DriverOutcome.fail).driverCalled
        = true ∧
    (TelloWrapper.move_forward ⟨false, false⟩ DriverOutcome.fail).propagated
        = false ∧
    (TelloWrapper.move_forward ⟨false, false⟩ DriverOutcome.fail).retval
        = none ∧
    (TelloWrapper.move_forward ⟨false, false⟩ DriverOutcome.fail).retval
        ≠ some false ∧
    (TelloWrapper.takeoff ⟨false, false⟩ DriverOutcome.ok
        DriverOutcome.ok).1.retval = some true ∧
    (TelloWrapper.takeoff ⟨false, false⟩ DriverOutcome.ok
        DriverOutcome.ok).2.connected = true := by
  decide

/- ----------------------------------------------------------------
   Real-valued helpers shared by the mission planner: Python float
   operations in exact real arithmetic.
   ---------------------------------------------------------------- -/

/-- Python float modulus for the divisor 360 as used by mission.py: the
result has the sign of the divisor, a - b * floor (a / b). -/
noncomputable def pymod (a b : ℝ) : ℝ := a - b * ⌊a / b⌋

/-- Python int() conversion on a real: truncation toward zero. -/
noncomputable def pytrunc (x : ℝ) : ℤ := if 0 ≤ x then ⌊x⌋ else ⌈x⌉

/-- Python math.atan2 y x in exact real arithmetic (no signed zeros): the
argument of the complex number x + y i, in (-pi, pi], with atan2 0 0 = 0. -/
noncomputable def atan2 (y x : ℝ) : ℝ := Complex.arg ⟨x, y⟩

/-- math.degrees. -/
noncomputable def deg (r : ℝ) : ℝ := r * 180 / Real.pi

/-- math.radians; used to state which direction a heading in degrees points. -/
noncomputable def rad (d : ℝ) : ℝ := d * Real.pi / 180

lemma pymod_eq_fract (a : ℝ) : pymod a 360 = 360 * Int.fract (a / 360) := by
  unfold pymod Int.fract
  have h : (360 : ℝ) * (a / 360) = a := by field_simp
  rw [mul_sub, h]

lemma pymod_nonneg (a : ℝ) : 0 ≤ pymod a 360 := by
  rw [pymod_eq_fract]
  exact mul_nonneg (by norm_num) (Int.fract_nonneg _)

lemma pymod_lt_360 (a : ℝ) : pymod a 360 < 360 := by
  rw [pymod_eq_fract]
  nlinarith [Int.fract_lt_one (a / 360)]

lemma pymod_eq_sub (a : ℝ) (k : ℤ) (h0 : 0 ≤ a - 360 * k)
    (h1 : a - 360 * k < 360) : pymod a 360 = a - 360 * k := by
  unfold pymod
  have h2 : (k : ℝ) ≤ a / 360 := by
    rw [le_div_iff (by norm_num : (0:ℝ) < 360)]
    linarith
  have h3 : a / 360 < (k : ℝ) + 1 := by
    rw [div_lt_iff (by norm_num : (0:ℝ) < 360)]
    linarith
  have h4 : ⌊a / 360⌋ = k := by
    rw [Int.floor_eq_iff]
    · exact ⟨h2, by exact_mod_cast h3⟩
  rw [h4]

lemma pymod_add_int_mul (a : ℝ) (k : ℤ) :
    pymod (a + 360 * k) 360 = pymod a 360 := by
  unfold pymod
  have h : (a + 360 * k) / 360 = a / 360 + k := by
    field_simp
    ring
  rw [h, Int.floor_add_int]
  push_cast
  ring

/-- The modulus is zero exactly on integer multiples of 360. -/
lemma pymod_eq_zero_iff (a : ℝ) : pymod a 360 = 0 ↔ ∃ k : ℤ, a = 360 * k := by
  constructor
  · intro h
    refine ⟨⌊a / 360⌋, ?_⟩
    unfold pymod at h
    linarith
  · rintro ⟨k, rfl⟩
    have := pymod_add_int_mul 0 k
    simpa [pymod] using this

/- ----------------------------------------------------------------
   Waypoint mission planner, src/autonomous/mission.py.
   ---------------------------------------------------------------- -/

/-- Waypoint of MissionPlanner.add_waypoint (mission.py lines 36-57); the
opaque custom action callback is an external collaborator and not modelled. -/
structure Waypoint where
  x : ℝ
  y : ℝ
  z : ℝ
  heading : Option ℝ
  takePhoto : Bool

/-- Dead-reckoned pose of the planner: the current_x, current_y, current_z
and current_heading variables of execute_mission (mission.py lines 162-164). -/
structure MState where
  x : ℝ
  y : ℝ
  z : ℝ
  heading : ℝ

/-- Commands issued to the vehicle by the planner and the orbital generator.
Distances of moveForward and degree arguments of rotations pass through
Python int(), hence carry integers; altitude moves are issued raw. -/
inductive Cmd where
  | takeoff
  | land
  | photo
  | moveUp (d : ℝ)
  | moveDown (d : ℝ)
  | moveForward (d : ℤ)
  | rotateCW (d : ℤ)
  | rotateCCW (d : ℤ)

/-- Signed rotation computed by mission.py lines 195-197 (also 221-223 and
257-259): the heading difference mod 360, shifted down by 360 when above
180. -/
noncomputable def signedRotation (current target : ℝ) : ℝ :=
  let r := pymod (target - current) 360
  if r > 180 then r - 360 else r

/-- Rotation commands issued for a signed rotation by mission.py lines
200-206 (movement phase) and 262-268 (return to launch): nothing when the
rotation is zero, otherwise clockwise for positive and counter-clockwise for
negative values. -/
noncomputable def rotCmds (rot : ℝ) : List Cmd :=
  if rot ≠ 0 then
    (if rot > 0 then [Cmd.rotateCW (pytrunc rot)]
     else [Cmd.rotateCCW (pytrunc (-rot))])
  else []

/-- Rotation commands of the explicit-heading branch, mission.py lines
226-231, which has no zero guard: a non-positive rotation always issues a
counter-clockwise command, possibly of zero degrees. -/
noncomputable def rotCmdsNoGuard (rot : ℝ) : List Cmd :=
  if rot > 0 then [Cmd.rotateCW (pytrunc rot)]
  else [Cmd.rotateCCW (pytrunc (-rot))]

/-- Target heading for a planar movement, mission.py lines 186-192: 90 or
270 when dx is zero, otherwise atan2 in degrees normalized into [0, 360). -/
noncomputable def targetHeading (s : MState) (w : Waypoint) : ℝ :=
  let dx := w.x - s.x
  let dy := w.y - s.y
  if dx = 0 then (if dy > 0 then 90 else 270)
  else
    let t := deg (atan2 dy dx)
    if t < 0 then t + 360 else t

/-- Altitude commands of one waypoint, mission.py lines 176-182. -/
noncomputable def heightCmds (s : MState) (w : Waypoint) : List Cmd :=
  if w.z - s.z ≠ 0 then
    (if w.z - s.z > 0 then [Cmd.moveUp (w.z - s.z)]
     else [Cmd.moveDown (s.z - w.z)])
  else []

/-- Heading after the movement phase of one waypoint, mission.py lines
184-207: the target heading when a nonzero rotation was executed, otherwise
unchanged. -/
noncomputable def moveHeading (s : MState) (w : Waypoint) : ℝ :=
  if w.x - s.x ≠ 0 ∨ w.y - s.y ≠ 0 then
    (if signedRotation s.heading (targetHeading s w) ≠ 0 then targetHeading s w
     else s.heading)
  else s.heading

/-- Commands of the movement phase of one waypoint, mission.py lines
184-213: the guarded rotation followed by a forward translation of the
truncated Euclidean distance. -/
noncomputable def moveCmds (s : MState) (w : Waypoint) : List Cmd :=
  if w.x - s.x ≠ 0 ∨ w.y - s.y ≠ 0 then
    rotCmds (signedRotation s.heading (targetHeading s w)) ++
      [Cmd.moveForward (pytrunc (Real.sqrt ((w.x - s.x)^2 + (w.y - s.y)^2)))]
  else []

/-- Commands of the explicit-heading phase, mission.py lines 219-232. -/
noncomputable def headingCmds (s : MState) (w : Waypoint) : List Cmd :=
  match w.heading with
  | some h =>
    if h ≠ moveHeading s w then
      rotCmdsNoGuard (signedRotation (moveHeading s w) h)
    else []
  | none => []

/-- Heading after one full waypoint: the explicitly requested heading when
present (mission.py line 232; when equal to the current heading it already
holds), otherwise the heading after the movement phase. -/
noncomputable def finalHeading (s : MState) (w : Waypoint) : ℝ :=
  match w.heading with
  | some h => h
  | none => moveHeading s w

/-- One waypoint of mission.py lines 167-247: altitude change, rotation
toward the target and forward translation, position update, explicit heading
override, photo. The returned state is the dead-reckoned pose afterwards. -/
noncomputable def step (s : MState) (w : Waypoint) : MState × List Cmd :=
  (⟨w.x, w.y, w.z, finalHeading s w⟩,
   heightCmds s w ++ moveCmds s w ++ headingCmds s w ++
     (if w.takePhoto then [Cmd.photo] else []))

/-- Sequential execution of a waypoint list from a state. -/
noncomputable def runWps : MState → List Waypoint → MState × List Cmd
  | s, [] => (s, [])
  | s, w :: ws =>
    let r := runWps (step s w).1 ws
    (r.1, (step s w).2 ++ r.2)

/-- Heading toward home computed by mission.py line 255. -/
noncomputable def returnHeading (s : MState) : ℝ :=
  pymod (180 + deg (atan2 s.y s.x)) 360

/-- Return-to-launch commands of mission.py lines 249-275: only entered when
the dead-reckoned altitude exceeds 20 cm; rotates toward home through the
guarded rotation, then translates the distance home only when it exceeds
20 cm. -/
noncomputable def rtl (s : MState) : List Cmd :=
  if s.z > 20 then
    rotCmds (signedRotation s.heading (returnHeading s)) ++
      (if Real.sqrt (s.x^2 + s.y^2) > 20 then
        [Cmd.moveForward (pytrunc (Real.sqrt (s.x^2 + s.y^2)))]
      else [])
  else []

/-- Planner object state relevant to the claims: the mission, the photo
flag, the photo counter and whether a connection to the vehicle exists. -/
structure Planner where
  waypoints : List Waypoint
  takePhotos : Bool
  photoCount : ℕ
  connected : Bool

/-- Result of MissionPlanner.execute_mission: the returned boolean, the
commands issued and the planner afterwards. -/
structure MissionResult where
  success : Bool
  commands : List Cmd
  planner : Planner

/-- Number of photo commands in a command list. -/
def cmdPhotoCount (l : List Cmd) : ℕ :=
  l.countP fun c => match c with | Cmd.photo => true | _ => false

/-- Embeds MissionPlanner.execute_mission, mission.py lines 131-302, on the
success path of its effectful collaborators: an empty mission aborts before
connecting (lines 141-143), then the planner connects, runs the battery
precheck (lines 146-155), takes off, executes every waypoint, returns toward
launch and lands. -/
noncomputable def executeMission (p : Planner) (battery minBattery : ℤ) :
    MissionResult :=
  match p.waypoints with
  | [] => ⟨false, [], p⟩
  | _ :: _ =>
    let p1 : Planner := { p with connected := true }
    if battery < minBattery then ⟨false, [], p1⟩
    else
      let r := runWps ⟨0, 0, 0, 0⟩ p.waypoints
      ⟨true, Cmd.takeoff :: (r.2 ++ rtl r.1 ++ [Cmd.land]),
        { p1 with
          photoCount := p1.photoCount +
            (if p.takePhotos then cmdPhotoCount r.2 else 0) }⟩

lemma signedRotation_def (a b : ℝ) : signedRotation a b =
    if pymod (b - a) 360 > 180 then pymod (b - a) 360 - 360
    else pymod (b - a) 360 := rfl

lemma rotCmds_pos (r : ℝ) (hr : 0 < r) :
    rotCmds r = [Cmd.rotateCW (pytrunc r)] := by
  unfold rotCmds
  rw [if_pos (ne_of_gt hr), if_pos hr]

lemma rotCmds_neg (r : ℝ) (hr : r < 0) :
    rotCmds r = [Cmd.rotateCCW (pytrunc (-r))] := by
  unfold rotCmds
  rw [if_pos (ne_of_lt hr), if_neg (not_lt.mpr hr.le)]

lemma rotCmds_zero : rotCmds 0 = [] := by
  unfold rotCmds
  simp

/-- C1 (amended): for headings in [0, 360) the computed signed rotation lies
in (-180, 180], its absolute value is the minimum of the two arc lengths
between the headings, positive rotations issue a clockwise command, negative
a counter-clockwise command of the absolute value, zero issues nothing; and
the rotation agrees with ((target - current + 180) mod 360) - 180 except
when the heading difference is congruent to 180 degrees, where the code
resolves the tie to +180 (clockwise) while that formula yields -180. -/
theorem c1_minimal_rotation (c t : ℝ) (hc0 : 0 ≤ c) (hc1 : c < 360)
    (ht0 : 0 ≤ t) (ht1 : t < 360) :
    (-180 < signedRotation c t ∧ signedRotation c t ≤ 180) ∧
    |signedRotation c t| =
      min (pymod |t - c| 360) (360 - pymod |t - c| 360) ∧
    (pymod (t - c) 360 ≠ 180 →
      signedRotation c t = pymod (t - c + 180) 360 - 180) ∧
    (pymod (t - c) 360 = 180 → signedRotation c t = 180) ∧
    (0 < signedRotation c t →
      rotCmds (signedRotation c t) =
        [Cmd.rotateCW (pytrunc (signedRotation c t))]) ∧
    (signedRotation c t < 0 →
      rotCmds (signedRotation c t) =
        [Cmd.rotateCCW (pytrunc (-signedRotation c t))]) ∧
    (signedRotation c t = 0 → rotCmds (signedRotation c t) = []) := by
  rcases le_or_lt 0 (t - c) with hd | hd
  · have hdlt : t - c < 360 := by linarith
    have hm : pymod (t - c) 360 = t - c := by
      have := pymod_eq_sub (t - c) 0 (by push_cast; linarith)
        (by push_cast; linarith)
      simpa using this
    have hma : pymod |t - c| 360 = t - c := by
      rw [abs_of_nonneg hd, hm]
    rw [signedRotation_def, hm, hma]
    by_cases h : t - c > 180
    · rw [if_pos h]
      refine ⟨⟨by linarith, by linarith⟩, ?_, ?_, ?_, ?_, ?_, ?_⟩
      · rw [abs_of_neg (by linarith : t - c - 360 < 0),
          min_eq_right (by linarith : 360 - (t - c) ≤ t - c)]
        ring
      · intro hne
        have h2 : pymod (t - c + 180) 360 = t - c - 180 := by
          have := pymod_eq_sub (t - c + 180) 1 (by push_cast; linarith)
            (by push_cast; linarith)
          push_cast at this
          linarith
        rw [h2]
        ring
      · intro h180
        linarith
      · intro hpos
        exact rotCmds_pos _ hpos
      · intro hneg
        exact rotCmds_neg _ hneg
      · intro h0
        rw [h0]
        exact rotCmds_zero
    · rw [if_neg h]
      push_neg at h
      refine ⟨⟨by linarith, h⟩, ?_, ?_, ?_, ?_, ?_, ?_⟩
      · rw [abs_of_nonneg hd, min_eq_left (by linarith : t - c ≤ 360 - (t - c))]
      · intro hne
        have hlt : t - c < 180 := lt_of_le_of_ne h hne
        have h2 : pymod (t - c + 180) 360 = t - c + 180 := by
          have := pymod_eq_sub (t - c + 180) 0 (by push_cast; linarith)
            (by push_cast; linarith)
          simpa using this
        rw [h2]
        ring
      · intro h180
        exact h180
      · intro hpos
        exact rotCmds_pos _ hpos
      · intro hneg
        exact rotCmds_neg _ hneg
      · intro h0
        rw [h0]
        exact rotCmds_zero
  · have hdgt : -360 < t - c := by linarith
    have hm : pymod (t - c) 360 = t - c + 360 := by
      have := pymod_eq_sub (t - c) (-1) (by push_cast; linarith)
        (by push_cast; linarith)
      push_cast at this
      linarith
    have hma : pymod |t - c| 360 = -(t - c) := by
      rw [abs_of_neg hd]
      have := pymod_eq_sub (-(t - c)) 0 (by push_cast; linarith)
        (by push_cast; linarith)
      simpa using this
    rw [signedRotation_def, hm, hma]
    by_cases h : t - c + 360 > 180
    · rw [if_pos h, show t - c + 360 - 360 = t - c from by ring]
      refine ⟨⟨by linarith, by linarith⟩, ?_, ?_, ?_, ?_, ?_, ?_⟩
      · rw [abs_of_neg hd,
          min_eq_left (by linarith : -(t - c) ≤ 360 - -(t - c))]
      · intro hne
        have h2 : pymod (t - c + 180) 360 = t - c + 180 := by
          have := pymod_eq_sub (t - c + 180) 0 (by push_cast; linarith)
            (by push_cast; linarith)
          simpa using this
        rw [h2]
        ring
      · intro h180
        linarith
      · intro hpos
        exact rotCmds_pos _ hpos
      · intro hneg
        exact rotCmds_neg _ hneg
      · intro h0
        rw [h0]
        exact rotCmds_zero
    · rw [if_neg h]
      push_neg at h
      refine ⟨⟨by linarith, h⟩, ?_, ?_, ?_, ?_, ?_, ?_⟩
      · rw [abs_of_nonneg (by linarith : (0:ℝ) ≤ t - c + 360),
          min_eq_right (by linarith : 360 - -(t - c) ≤ -(t - c))]
        ring
      · intro hne
        have hlt : t - c < -180 := by
          rcases lt_or_eq_of_le (by linarith : t - c ≤ -180) with h2 | h2
          · exact h2
          · exact absurd (by linarith : t - c + 360 = 180) hne
        have h2 : pymod (t - c + 180) 360 = t - c + 540 := by
          have := pymod_eq_sub (t - c + 180) (-1) (by push_cast; linarith)
            (by push_cast; linarith)
          push_cast at this
          linarith
        rw [h2]
        ring
      · intro h180
        exact h180
      · intro hpos
        exact rotCmds_pos _ hpos
      · intro hneg
        exact rotCmds_neg _ hneg
      · intro h0
        rw [h0]
        exact rotCmds_zero

/-- Witness for C1 at current = 0, target = 90. -/
theorem c1_minimal_rotation_witness :
    ((0:ℝ) ≤ 0 ∧ (0:ℝ) < 360 ∧ (0:ℝ) ≤ 90 ∧ (90:ℝ) < 360) ∧
    ((-180 < signedRotation 0 90 ∧ signedRotation 0 90 ≤ 180) ∧
      |signedRotation 0 90| =
        min (pymod |(90:ℝ) - 0| 360) (360 - pymod |(90:ℝ) - 0| 360) ∧
      (pymod ((90:ℝ) - 0) 360 ≠ 180 →
        signedRotation 0 90 = pymod ((90:ℝ) - 0 + 180) 360 - 180) ∧
      (pymod ((90:ℝ) - 0) 360 = 180 → signedRotation 0 90 = 180) ∧
      (0 < signedRotation 0 90 →
        rotCmds (signedRotation 0 90) =
          [Cmd.rotateCW (pytrunc (signedRotation 0 90))]) ∧
      (signedRotation 0 90 < 0 →
        rotCmds (signedRotation 0 90) =
          [Cmd.rotateCCW (pytrunc (-signedRotation 0 90))]) ∧
      (signedRotation 0 90 = 0 → rotCmds (signedRotation 0 90) = [])) :=
  ⟨⟨le_refl 0, by norm_num, by norm_num, by norm_num⟩,
    c1_minimal_rotation 0 90 (le_refl 0) (by norm_num) (by norm_num)
      (by norm_num)⟩

/-- C1 counterexample: at current = 0, target = 180 the code computes +180
(and rotates clockwise), while the formula ((target - current + 180) mod
360) - 180 named by the claim yields -180, which moreover lies outside the
claimed interval (-180, 180]. -/
theorem c1_formula_counterexample :
    signedRotation 0 180 = 180 ∧
    pymod ((180:ℝ) - 0 + 180) 360 - 180 = -180 ∧
    ¬(-180 < pymod ((180:ℝ) - 0 + 180) 360 - 180) ∧
    signedRotation 0 180 ≠ pymod ((180:ℝ) - 0 + 180) 360 - 180 := by
  have h1 : pymod ((180:ℝ) - 0) 360 = 180 := by
    have := pymod_eq_sub ((180:ℝ) - 0) 0 (by push_cast; norm_num)
      (by push_cast; norm_num)
    simpa using this
  have h2 : pymod ((180:ℝ) - 0 + 180) 360 = 0 := by
    have := pymod_eq_sub ((180:ℝ) - 0 + 180) 1 (by push_cast; norm_num)
      (by push_cast; norm_num)
    push_cast at this
    linarith
  have h3 : signedRotation 0 180 = 180 := by
    rw [signedRotation_def, h1]
    norm_num
  exact ⟨h3, by rw [h2]; norm_num, by rw [h2]; norm_num,
    by rw [h3, h2]; norm_num⟩

/- ----------------------------------------------------------------
   Evaluation lemmas for the planner's geometry.
   ---------------------------------------------------------------- -/

lemma mk_eq_ofReal (x : ℝ) : (⟨x, 0⟩ : ℂ) = (x : ℂ) := by
  apply Complex.ext <;> simp

lemma atan2_zero_zero : atan2 0 0 = 0 := by
  unfold atan2
  rw [show (⟨0, 0⟩ : ℂ) = 0 from by apply Complex.ext <;> simp]
  exact Complex.arg_zero

lemma atan2_zero_nonneg (x : ℝ) (hx : 0 ≤ x) : atan2 0 x = 0 := by
  unfold atan2
  rw [mk_eq_ofReal]
  exact Complex.arg_ofReal_of_nonneg hx

lemma atan2_zero_neg (x : ℝ) (hx : x < 0) : atan2 0 x = Real.pi := by
  unfold atan2
  rw [mk_eq_ofReal]
  exact Complex.arg_ofReal_of_neg hx

lemma deg_zero : deg 0 = 0 := by
  unfold deg
  simp

lemma deg_pi : deg Real.pi = 180 := by
  unfold deg
  rw [mul_comm, mul_div_assoc, div_self Real.pi_ne_zero, mul_one]

lemma targetHeading_east (s : MState) (w : Waypoint) (hdx : 0 < w.x - s.x)
    (hdy : w.y - s.y = 0) : targetHeading s w = 0 := by
  unfold targetHeading
  rw [if_neg (by intro h; rw [h] at hdx; exact lt_irrefl 0 hdx)]
  rw [hdy, atan2_zero_nonneg _ hdx.le, deg_zero]
  norm_num

lemma targetHeading_west (s : MState) (w : Waypoint) (hdx : w.x - s.x < 0)
    (hdy : w.y - s.y = 0) : targetHeading s w = 180 := by
  unfold targetHeading
  rw [if_neg (ne_of_lt hdx)]
  rw [hdy, atan2_zero_neg _ hdx, deg_pi]
  norm_num

lemma targetHeading_north (s : MState) (w : Waypoint) (hdx : w.x - s.x = 0)
    (hdy : 0 < w.y - s.y) : targetHeading s w = 90 := by
  unfold targetHeading
  rw [if_pos hdx, if_pos hdy]

lemma targetHeading_south (s : MState) (w : Waypoint) (hdx : w.x - s.x = 0)
    (hdy : w.y - s.y < 0) : targetHeading s w = 270 := by
  unfold targetHeading
  rw [if_pos hdx, if_neg (not_lt.mpr hdy.le)]

lemma signedRotation_small (a b : ℝ) (h0 : 0 ≤ b - a) (h1 : b - a ≤ 180) :
    signedRotation a b = b - a := by
  have hm : pymod (b - a) 360 = b - a := by
    have := pymod_eq_sub (b - a) 0 (by push_cast; linarith)
      (by push_cast; linarith)
    simpa using this
  rw [signedRotation_def, hm, if_neg (not_lt.mpr h1)]

lemma signedRotation_wrap (a b : ℝ) (h0 : 0 < b - a + 360)
    (h1 : b - a + 360 ≤ 180) : signedRotation a b = b - a + 360 := by
  have hm : pymod (b - a) 360 = b - a + 360 := by
    have := pymod_eq_sub (b - a) (-1) (by push_cast; linarith)
      (by push_cast; linarith)
    push_cast at this
    linarith
  rw [signedRotation_def, hm, if_neg (not_lt.mpr h1)]

lemma pytrunc_num (x : ℝ) (n : ℤ) (hx : 0 ≤ x) (h0 : (n : ℝ) ≤ x)
    (h1 : x < n + 1) : pytrunc x = n := by
  unfold pytrunc
  rw [if_pos hx, Int.floor_eq_iff.mpr ⟨h0, by exact_mod_cast h1⟩]

lemma sqrt_eval (a b : ℝ) (hb : 0 ≤ b) (h : a = b^2) : Real.sqrt a = b := by
  rw [h, Real.sqrt_sq hb]

/- ----------------------------------------------------------------
   The demonstration square mission of mission.py main (lines 352-364).
   ---------------------------------------------------------------- -/

/-- Square mission of mission.py main: side 80, height 100, headings
0, 90, 180, 270, 0, a photo at every waypoint. -/
noncomputable def squareMission : List Waypoint :=
  [⟨0, 0, 100, some 0, true⟩, ⟨80, 0, 100, some 90, true⟩,
   ⟨80, 80, 100, some 180, true⟩, ⟨0, 80, 100, some 270, true⟩,
   ⟨0, 0, 100, some 0, true⟩]

lemma pytrunc_80 : pytrunc (80:ℝ) = 80 :=
  pytrunc_num _ _ (by norm_num) (by norm_num) (by norm_num)

lemma pytrunc_90 : pytrunc (90:ℝ) = 90 :=
  pytrunc_num _ _ (by norm_num) (by norm_num) (by norm_num)

lemma sqrt_6400 : Real.sqrt (6400:ℝ) = 80 :=
  sqrt_eval _ 80 (by norm_num) (by norm_num)

lemma step_sq1 :
    step ⟨0, 0, 0, 0⟩ ⟨0, 0, 100, some 0, true⟩ =
      (⟨0, 0, 100, 0⟩, [Cmd.moveUp 100, Cmd.photo]) := by
  norm_num [step, heightCmds, moveCmds, moveHeading, headingCmds, finalHeading]

lemma step_sq2 :
    step ⟨0, 0, 100, 0⟩ ⟨80, 0, 100, some 90, true⟩ =
      (⟨80, 0, 100, 90⟩, [Cmd.moveForward 80, Cmd.rotateCW 90, Cmd.photo]) := by
  have ht : targetHeading ⟨0, 0, 100, 0⟩ ⟨80, 0, 100, some 90, true⟩ = 0 :=
    targetHeading_east _ _ (by norm_num) (by norm_num)
  have hr : signedRotation (0:ℝ) 0 = 0 := by
    simpa using signedRotation_small 0 0 (by norm_num) (by norm_num)
  have hr2 : signedRotation (0:ℝ) 90 = 90 := by
    simpa using signedRotation_small 0 90 (by norm_num) (by norm_num)
  norm_num [step, heightCmds, moveCmds, moveHeading, headingCmds, finalHeading,
    rotCmds, rotCmdsNoGuard, ht, hr, hr2, sqrt_6400, pytrunc_80, pytrunc_90]

lemma step_sq3 :
    step ⟨80, 0, 100, 90⟩ ⟨80, 80, 100, some 180, true⟩ =
      (⟨80, 80, 100, 180⟩, [Cmd.moveForward 80, Cmd.rotateCW 90, Cmd.photo]) := by
  have ht : targetHeading ⟨80, 0, 100, 90⟩ ⟨80, 80, 100, some 180, true⟩ = 90 :=
    targetHeading_north _ _ (by norm_num) (by norm_num)
  have hr : signedRotation (90:ℝ) 90 = 0 := by
    simpa using signedRotation_small 90 90 (by norm_num) (by norm_num)
  have hr2 : signedRotation (90:ℝ) 180 = 90 := by
    have := signedRotation_small 90 180 (by norm_num) (by norm_num)
    norm_num at this
    exact this
  norm_num [step, heightCmds, moveCmds, moveHeading, headingCmds, finalHeading,
    rotCmds, rotCmdsNoGuard, ht, hr, hr2, sqrt_6400, pytrunc_80, pytrunc_90]

lemma step_sq4 :
    step ⟨80, 80, 100, 180⟩ ⟨0, 80, 100, some 270, true⟩ =
      (⟨0, 80, 100, 270⟩, [Cmd.moveForward 80, Cmd.rotateCW 90, Cmd.photo]) := by
  have ht : targetHeading ⟨80, 80, 100, 180⟩ ⟨0, 80, 100, some 270, true⟩ = 180 :=
    targetHeading_west _ _ (by norm_num) (by norm_num)
  have hr : signedRotation (180:ℝ) 180 = 0 := by
    simpa using signedRotation_small 180 180 (by norm_num) (by norm_num)
  have hr2 : signedRotation (180:ℝ) 270 = 90 := by
    have := signedRotation_small 180 270 (by norm_num) (by norm_num)
    norm_num at this
    exact this
  norm_num [step, heightCmds, moveCmds, moveHeading, headingCmds, finalHeading,
    rotCmds, rotCmdsNoGuard, ht, hr, hr2, sqrt_6400, pytrunc_80, pytrunc_90]

lemma step_sq5 :
    step ⟨0, 80, 100, 270⟩ ⟨0, 0, 100, some 0, true⟩ =
      (⟨0, 0, 100, 0⟩, [Cmd.moveForward 80, Cmd.rotateCW 90, Cmd.photo]) := by
  have ht : targetHeading ⟨0, 80, 100, 270⟩ ⟨0, 0, 100, some 0, true⟩ = 270 :=
    targetHeading_south _ _ (by norm_num) (by norm_num)
  have hr : signedRotation (270:ℝ) 270 = 0 := by
    simpa using signedRotation_small 270 270 (by norm_num) (by norm_num)
  have hr2 : signedRotation (270:ℝ) 0 = 90 := by
    have := signedRotation_wrap 270 0 (by norm_num) (by norm_num)
    norm_num at this
    exact this
  norm_num [step, heightCmds, moveCmds, moveHeading, headingCmds, finalHeading,
    rotCmds, rotCmdsNoGuard, ht, hr, hr2, sqrt_6400, pytrunc_80, pytrunc_90]

lemma pymod_180 : pymod (180:ℝ) 360 = 180 := by
  simpa using pymod_eq_sub (180:ℝ) 0 (by push_cast; norm_num)
    (by push_cast; norm_num)

lemma rtl_square : rtl ⟨0, 0, 100, 0⟩ = [Cmd.rotateCW 180] := by
  have hret : returnHeading ⟨0, 0, 100, 0⟩ = 180 := by
    unfold returnHeading
    norm_num [atan2_zero_zero, deg_zero, pymod_180]
  have hr : signedRotation (0:ℝ) 180 = 180 := by
    simpa using signedRotation_small 0 180 (by norm_num) (by norm_num)
  have hp : pytrunc (180:ℝ) = 180 :=
    pytrunc_num _ _ (by norm_num) (by norm_num) (by norm_num)
  norm_num [rtl, hret, hr, rotCmds, hp, Real.sqrt_zero]

lemma runWps_square :
    runWps ⟨0, 0, 0, 0⟩ squareMission =
      (⟨0, 0, 100, 0⟩,
       [Cmd.moveUp 100, Cmd.photo,
        Cmd.moveForward 80, Cmd.rotateCW 90, Cmd.photo,
        Cmd.moveForward 80, Cmd.rotateCW 90, Cmd.photo,
        Cmd.moveForward 80, Cmd.rotateCW 90, Cmd.photo,
        Cmd.moveForward 80, Cmd.rotateCW 90, Cmd.photo]) := by
  unfold squareMission
  simp [runWps, step_sq1, step_sq2, step_sq3, step_sq4, step_sq5]

/-- Number of forward translations of a given length in a command list. -/
def countForwardOf (d : ℤ) (l : List Cmd) : ℕ :=
  l.countP fun c => match c with | Cmd.moveForward e => e == d | _ => false

/-- Number of forward translations of any length in a command list. -/
def countTranslates (l : List Cmd) : ℕ :=
  l.countP fun c => match c with | Cmd.moveForward _ => true | _ => false

/-- Number of clockwise rotations of a given angle in a command list. -/
def countRotateCWOf (d : ℤ) (l : List Cmd) : ℕ :=
  l.countP fun c => match c with | Cmd.rotateCW e => e == d | _ => false

lemma executeMission_commands (p : Planner) (battery minBattery : ℤ)
    (w : Waypoint) (ws : List Waypoint) (hw : p.waypoints = w :: ws)
    (hb : ¬ battery < minBattery) :
    (executeMission p battery minBattery).commands =
      Cmd.takeoff :: ((runWps ⟨0, 0, 0, 0⟩ (w :: ws)).2 ++
        rtl (runWps ⟨0, 0, 0, 0⟩ (w :: ws)).1 ++ [Cmd.land]) := by
  unfold executeMission
  rw [hw]
  dsimp only
  rw [if_neg hb]

/-- C2 (amended): the square mission issues the takeoff, one climb of 100,
exactly 4 forward translations (all of length 80), exactly 4 clockwise
rotations of 90 degrees, a photo at each waypoint, and its return-to-launch
phase issues exactly one command, a spurious 180-degree clockwise rotation
toward home computed at the origin itself, followed by no translation (the
distance home, 0, is inside the 20 cm dead zone). -/
theorem c2_square_mission :
    (executeMission ⟨squareMission, true, 0, false⟩ 50 30).commands =
      [Cmd.takeoff, Cmd.moveUp 100, Cmd.photo,
       Cmd.moveForward 80, Cmd.rotateCW 90, Cmd.photo,
       Cmd.moveForward 80, Cmd.rotateCW 90, Cmd.photo,
       Cmd.moveForward 80, Cmd.rotateCW 90, Cmd.photo,
       Cmd.moveForward 80, Cmd.rotateCW 90, Cmd.photo,
       Cmd.rotateCW 180, Cmd.land] ∧
    countForwardOf 80
      (executeMission ⟨squareMission, true, 0, false⟩ 50 30).commands = 4 ∧
    countTranslates
      (executeMission ⟨squareMission, true, 0, false⟩ 50 30).commands = 4 ∧
    countRotateCWOf 90
      (executeMission ⟨squareMission, true, 0, false⟩ 50 30).commands = 4 ∧
    rtl (runWps ⟨0, 0, 0, 0⟩ squareMission).1 = [Cmd.rotateCW 180] := by
  have hstate : (runWps ⟨0, 0, 0, 0⟩ squareMission).1 = ⟨0, 0, 100, 0⟩ := by
    rw [runWps_square]
  have hcmd : (executeMission ⟨squareMission, true, 0, false⟩ 50 30).commands =
      [Cmd.takeoff, Cmd.moveUp 100, Cmd.photo,
       Cmd.moveForward 80, Cmd.rotateCW 90, Cmd.photo,
       Cmd.moveForward 80, Cmd.rotateCW 90, Cmd.photo,
       Cmd.moveForward 80, Cmd.rotateCW 90, Cmd.photo,
       Cmd.moveForward 80, Cmd.rotateCW 90, Cmd.photo,
       Cmd.rotateCW 180, Cmd.land] := by
    have h1 : (executeMission ⟨squareMission, true, 0, false⟩ 50 30).commands =
        Cmd.takeoff :: ((runWps ⟨0, 0, 0, 0⟩ squareMission).2 ++
          rtl (runWps ⟨0, 0, 0, 0⟩ squareMission).1 ++ [Cmd.land]) :=
      executeMission_commands _ _ _ _ _ rfl (by norm_num)
    rw [h1, hstate, rtl_square, runWps_square]
    rfl
  refine ⟨hcmd, ?_, ?_, ?_, ?_⟩
  · rw [hcmd]
    rfl
  · rw [hcmd]
    rfl
  · rw [hcmd]
    rfl
  · rw [hstate, rtl_square]

/-- C2 counterexample: the return-to-launch phase of the square mission is
not empty; it issues one clockwise 180-degree rotation. -/
theorem c2_rtl_counterexample :
    rtl (runWps ⟨0, 0, 0, 0⟩ squareMission).1 = [Cmd.rotateCW 180] ∧
    rtl (runWps ⟨0, 0, 0, 0⟩ squareMission).1 ≠ [] := by
  have hstate : (runWps ⟨0, 0, 0, 0⟩ squareMission).1 = ⟨0, 0, 100, 0⟩ := by
    rw [runWps_square]
  rw [hstate, rtl_square]
  exact ⟨rfl, by simp⟩

/- ----------------------------------------------------------------
   Return to launch (C3).
   ---------------------------------------------------------------- -/

lemma rad_pymod_cos (a : ℝ) :
    Real.cos (rad (pymod a 360)) = Real.cos (rad a) := by
  have h : rad (pymod a 360) = rad a - (⌊a / 360⌋ : ℤ) * (2 * Real.pi) := by
    unfold rad pymod
    field_simp
    ring
  rw [h, Real.cos_sub_int_mul_two_pi]

lemma rad_pymod_sin (a : ℝ) :
    Real.sin (rad (pymod a 360)) = Real.sin (rad a) := by
  have h : rad (pymod a 360) = rad a - (⌊a / 360⌋ : ℤ) * (2 * Real.pi) := by
    unfold rad pymod
    field_simp
    ring
  rw [h, Real.sin_sub_int_mul_two_pi]

lemma rad_add180_deg (θ : ℝ) : rad (180 + deg θ) = Real.pi + θ := by
  unfold rad deg
  field_simp
  ring

lemma mk_ne_zero (x y : ℝ) (h : ¬(x = 0 ∧ y = 0)) : (⟨x, y⟩ : ℂ) ≠ 0 := by
  intro h0
  apply h
  constructor
  · simpa using congrArg Complex.re h0
  · simpa using congrArg Complex.im h0

lemma abs_mk (x y : ℝ) : Complex.abs ⟨x, y⟩ = Real.sqrt (x^2 + y^2) := by
  rw [Complex.abs_apply, Complex.normSq_mk]
  congr 1
  ring

/-- Direction of the return heading: its cosine and sine point exactly back
toward the origin. -/
lemma returnHeading_dir (s : MState) (hz : ¬(s.x = 0 ∧ s.y = 0)) :
    Real.cos (rad (returnHeading s)) =
      -(s.x / Real.sqrt (s.x^2 + s.y^2)) ∧
    Real.sin (rad (returnHeading s)) =
      -(s.y / Real.sqrt (s.x^2 + s.y^2)) := by
  have hzc : (⟨s.x, s.y⟩ : ℂ) ≠ 0 := mk_ne_zero _ _ hz
  unfold returnHeading atan2
  constructor
  · rw [rad_pymod_cos, rad_add180_deg, add_comm, Real.cos_add_pi,
      Complex.cos_arg hzc, abs_mk]
  · rw [rad_pymod_sin, rad_add180_deg, add_comm, Real.sin_add_pi,
      Complex.sin_arg, abs_mk]

lemma atan2_neg_neg (s : MState) (hz : ¬(s.x = 0 ∧ s.y = 0)) :
    pymod (deg (atan2 (-s.y) (-s.x))) 360 = returnHeading s := by
  have hzc : (⟨s.x, s.y⟩ : ℂ) ≠ 0 := mk_ne_zero _ _ hz
  have hneg : (⟨-s.x, -s.y⟩ : ℂ) = -(⟨s.x, s.y⟩ : ℂ) := by
    apply Complex.ext <;> simp
  have harg := Complex.arg_neg_coe_angle hzc
  rw [← Real.Angle.coe_add, Real.Angle.angle_eq_iff_two_pi_dvd_sub] at harg
  obtain ⟨k, hk⟩ := harg
  have ha : (-(⟨s.x, s.y⟩ : ℂ)).arg =
      (⟨s.x, s.y⟩ : ℂ).arg + Real.pi + 2 * Real.pi * k := by
    linarith
  unfold returnHeading atan2
  rw [hneg]
  have hdeg : deg ((-(⟨s.x, s.y⟩ : ℂ)).arg) =
      180 + deg ((⟨s.x, s.y⟩ : ℂ).arg) + 360 * (k : ℝ) := by
    unfold deg
    rw [ha]
    field_simp
    ring
  rw [hdeg, pymod_add_int_mul]

lemma rotCmds_length_le_one (r : ℝ) : (rotCmds r).length ≤ 1 := by
  unfold rotCmds
  split_ifs <;> simp

lemma moveForward_not_mem_rotCmds (r : ℝ) (d : ℤ) :
    Cmd.moveForward d ∉ rotCmds r := by
  unfold rotCmds
  split_ifs <;> simp

/-- C3 (amended): the return-to-launch step runs only when the final
dead-reckoned altitude exceeds 20 cm. In that case it computes the heading
toward the origin (equal, modulo 360, to atan2(-y, -x) in degrees whenever
the position is not the origin), issues at most one minimal rotation, and
issues the single return translation exactly when the distance from the
origin exceeds the 20 cm dead zone; the translation distance along the
return heading cancels the dead-reckoned (x, y) exactly. When the final
altitude is at most 20 cm, nothing at all is issued, regardless of the
distance from the origin. -/
theorem c3_return_to_launch (s : MState) :
    (s.z ≤ 20 → rtl s = []) ∧
    (20 < s.z →
      (Real.sqrt (s.x^2 + s.y^2) ≤ 20 →
        rtl s = rotCmds (signedRotation s.heading (returnHeading s)) ∧
        (∀ d : ℤ, Cmd.moveForward d ∉ rtl s)) ∧
      (20 < Real.sqrt (s.x^2 + s.y^2) →
        rtl s = rotCmds (signedRotation s.heading (returnHeading s)) ++
          [Cmd.moveForward (pytrunc (Real.sqrt (s.x^2 + s.y^2)))] ∧
        (rotCmds (signedRotation s.heading (returnHeading s))).length ≤ 1 ∧
        s.x + Real.sqrt (s.x^2 + s.y^2) * Real.cos (rad (returnHeading s)) = 0 ∧
        s.y + Real.sqrt (s.x^2 + s.y^2) * Real.sin (rad (returnHeading s)) = 0) ∧
      (¬(s.x = 0 ∧ s.y = 0) →
        pymod (deg (atan2 (-s.y) (-s.x))) 360 = returnHeading s)) := by
  constructor
  · intro h
    unfold rtl
    rw [if_neg (not_lt.mpr h)]
  · intro hz
    refine ⟨?_, ?_, fun h => atan2_neg_neg s h⟩
    · intro hd
      have he : rtl s = rotCmds (signedRotation s.heading (returnHeading s)) := by
        unfold rtl
        rw [if_pos hz, if_neg (not_lt.mpr hd)]
        simp
      refine ⟨he, ?_⟩
      intro d
      rw [he]
      exact moveForward_not_mem_rotCmds _ _
    · intro hd
      have hne : ¬(s.x = 0 ∧ s.y = 0) := by
        rintro ⟨hx, hy⟩
        rw [hx, hy] at hd
        norm_num [Real.sqrt_zero] at hd
      have hD : (0:ℝ) < Real.sqrt (s.x^2 + s.y^2) := by linarith
      have hDne : Real.sqrt (s.x^2 + s.y^2) ≠ 0 := ne_of_gt hD
      obtain ⟨hcos, hsin⟩ := returnHeading_dir s hne
      refine ⟨?_, rotCmds_length_le_one _, ?_, ?_⟩
      · unfold rtl
        rw [if_pos hz, if_pos hd]
      · rw [hcos]
        field_simp
        ring
      · rw [hsin]
        field_simp
        ring

/-- Witness for C3 at the final pose (100, 0, 100) with heading 0. -/
theorem c3_return_to_launch_witness :
    (20:ℝ) < 100 ∧ 20 < Real.sqrt ((100:ℝ)^2 + (0:ℝ)^2) ∧
    (rtl ⟨100, 0, 100, 0⟩ =
      rotCmds (signedRotation 0 (returnHeading ⟨100, 0, 100, 0⟩)) ++
        [Cmd.moveForward (pytrunc (Real.sqrt ((100:ℝ)^2 + (0:ℝ)^2)))] ∧
     (rotCmds (signedRotation 0 (returnHeading ⟨100, 0, 100, 0⟩))).length ≤ 1 ∧
     (100:ℝ) + Real.sqrt ((100:ℝ)^2 + (0:ℝ)^2) *
       Real.cos (rad (returnHeading ⟨100, 0, 100, 0⟩)) = 0 ∧
     (0:ℝ) + Real.sqrt ((100:ℝ)^2 + (0:ℝ)^2) *
       Real.sin (rad (returnHeading ⟨100, 0, 100, 0⟩)) = 0) := by
  have hsq : Real.sqrt ((100:ℝ)^2 + (0:ℝ)^2) = 100 :=
    sqrt_eval _ _ (by norm_num) (by norm_num)
  have h1 : (20:ℝ) < 100 := by norm_num
  have h2 : (20:ℝ) < Real.sqrt ((100:ℝ)^2 + (0:ℝ)^2) := by
    rw [hsq]
    norm_num
  exact ⟨h1, h2, ((c3_return_to_launch ⟨100, 0, 100, 0⟩).2 h1).2.1 h2⟩

lemma step_c3cx :
    step ⟨0, 0, 0, 0⟩ ⟨100, 0, 10, none, false⟩ =
      (⟨100, 0, 10, 0⟩, [Cmd.moveUp 10, Cmd.moveForward 100]) := by
  have ht : targetHeading ⟨0, 0, 0, 0⟩ ⟨100, 0, 10, none, false⟩ = 0 :=
    targetHeading_east _ _ (by norm_num) (by norm_num)
  have hr : signedRotation (0:ℝ) 0 = 0 := by
    simpa using signedRotation_small 0 0 (by norm_num) (by norm_num)
  have hsq : Real.sqrt (10000:ℝ) = 100 :=
    sqrt_eval _ _ (by norm_num) (by norm_num)
  have hp : pytrunc (100:ℝ) = 100 :=
    pytrunc_num _ _ (by norm_num) (by norm_num) (by norm_num)
  norm_num [step, heightCmds, moveCmds, moveHeading, headingCmds, finalHeading,
    rotCmds, ht, hr, hsq, hp]

/-- C3 counterexample: a mission ending at (100, 0) but at altitude 10 cm is
over 20 cm away from the origin, yet the return-to-launch step issues no
commands at all, because the whole step is guarded by the altitude being
above 20 cm. -/
theorem c3_skipped_rtl_counterexample :
    (runWps ⟨0, 0, 0, 0⟩ [⟨100, 0, 10, none, false⟩]).1 = ⟨100, 0, 10, 0⟩ ∧
    (20:ℝ) < Real.sqrt ((100:ℝ)^2 + (0:ℝ)^2) ∧
    rtl ⟨100, 0, 10, 0⟩ = [] := by
  refine ⟨?_, ?_, ?_⟩
  · simp [runWps, step_c3cx]
  · have hsq : Real.sqrt ((100:ℝ)^2 + (0:ℝ)^2) = 100 :=
      sqrt_eval _ _ (by norm_num) (by norm_num)
    rw [hsq]
    norm_num
  · unfold rtl
    rw [if_neg (show ¬((⟨100, 0, 10, 0⟩ : MState).z > 20) by norm_num)]

/- ----------------------------------------------------------------
   Dead-reckoned pose tracking (C4).
   ---------------------------------------------------------------- -/

lemma deg_atan2_bounds (y x : ℝ) :
    -180 < deg (atan2 y x) ∧ deg (atan2 y x) ≤ 180 := by
  unfold deg atan2
  have h1 := Complex.neg_pi_lt_arg (⟨x, y⟩ : ℂ)
  have h2 := Complex.arg_le_pi (⟨x, y⟩ : ℂ)
  have hp := Real.pi_pos
  constructor
  · rw [lt_div_iff hp]
    nlinarith
  · rw [div_le_iff hp]
    nlinarith

lemma targetHeading_bounds (s : MState) (w : Waypoint) :
    0 ≤ targetHeading s w ∧ targetHeading s w < 360 := by
  unfold targetHeading
  dsimp only
  have hb := deg_atan2_bounds (w.y - s.y) (w.x - s.x)
  split_ifs with h1 h2 h3
  · norm_num
  · norm_num
  · constructor <;> linarith [hb.1, hb.2]
  · push_neg at h3
    constructor <;> linarith [hb.2]

lemma moveHeading_bounds (s : MState) (w : Waypoint)
    (hs0 : 0 ≤ s.heading) (hs1 : s.heading < 360) :
    0 ≤ moveHeading s w ∧ moveHeading s w < 360 := by
  unfold moveHeading
  split_ifs with h1 h2
  · exact targetHeading_bounds s w
  · exact ⟨hs0, hs1⟩
  · exact ⟨hs0, hs1⟩

lemma finalHeading_bounds (s : MState) (w : Waypoint)
    (hs0 : 0 ≤ s.heading) (hs1 : s.heading < 360)
    (hw : ∀ a, w.heading = some a → 0 ≤ a ∧ a < 360) :
    0 ≤ finalHeading s w ∧ finalHeading s w < 360 := by
  rcases hh : w.heading with _ | a
  · simp only [finalHeading, hh]
    exact moveHeading_bounds s w hs0 hs1
  · simp only [finalHeading, hh]
    exact hw a hh

lemma runWps_heading_bounds (ws : List Waypoint) (s : MState)
    (hs0 : 0 ≤ s.heading) (hs1 : s.heading < 360)
    (hws : ∀ u ∈ ws, ∀ a, u.heading = some a → 0 ≤ a ∧ a < 360) :
    0 ≤ (runWps s ws).1.heading ∧ (runWps s ws).1.heading < 360 := by
  induction ws generalizing s with
  | nil => exact ⟨hs0, hs1⟩
  | cons w ws ih =>
    have hstep := finalHeading_bounds s w hs0 hs1
      (fun a ha => hws w (List.mem_cons_self w ws) a ha)
    exact ih (step s w).1 hstep.1 hstep.2
      (fun u hu a ha => hws u (List.mem_cons_of_mem w hu) a ha)

lemma runWps_fst_append (s : MState) (ws ws2 : List Waypoint) :
    (runWps s (ws ++ ws2)).1 = (runWps (runWps s ws).1 ws2).1 := by
  induction ws generalizing s with
  | nil => rfl
  | cons w ws ih =>
    show (runWps (step s w).1 (ws ++ ws2)).1 = (runWps (runWps s (w :: ws)).1 ws2).1
    rw [ih]
    rfl

lemma signedRotation_eq_zero_imp (a b : ℝ) (ha0 : 0 ≤ a) (ha1 : a < 360)
    (hb0 : 0 ≤ b) (hb1 : b < 360) (h : signedRotation a b = 0) : b = a := by
  rw [signedRotation_def] at h
  split_ifs at h with hgt
  · have := pymod_lt_360 (b - a)
    linarith
  · rw [pymod_eq_zero_iff] at h
    obtain ⟨k, hk⟩ := h
    have hk0 : k = 0 := by
      by_contra hne
      rcases lt_or_gt_of_ne hne with hlt | hgt2
      · have h1 : (k : ℝ) ≤ -1 := by exact_mod_cast (by omega : k ≤ -1)
        nlinarith
      · have h1 : (1 : ℝ) ≤ (k : ℝ) := by exact_mod_cast (by omega : 1 ≤ k)
        nlinarith
    rw [hk0] at hk
    push_cast at hk
    linarith

/-- When the waypoint needs planar movement, the heading after the movement
phase is the target heading even when the rotation was zero (in that case
they already coincide, given normalized headings). -/
lemma moveHeading_eq_target (s : MState) (w : Waypoint)
    (hs0 : 0 ≤ s.heading) (hs1 : s.heading < 360)
    (hmove : w.x - s.x ≠ 0 ∨ w.y - s.y ≠ 0) :
    moveHeading s w = targetHeading s w := by
  unfold moveHeading
  rw [if_pos hmove]
  split_ifs with h
  · rfl
  · push_neg at h
    have hb := targetHeading_bounds s w
    exact (signedRotation_eq_zero_imp s.heading (targetHeading s w) hs0 hs1
      hb.1 hb.2 h).symm

/-- Movement target headings computed along a mission, in order: the values
assigned to the target_heading variable of mission.py lines 186-192. -/
noncomputable def computedTargets : MState → List Waypoint → List ℝ
  | _, [] => []
  | s, w :: ws =>
    (if w.x - s.x ≠ 0 ∨ w.y - s.y ≠ 0 then [targetHeading s w] else []) ++
      computedTargets (step s w).1 ws

/-- C4 (amended): after the planner processes a waypoint, its dead-reckoned
pose equals that waypoint's (x, y, z) exactly; provided all explicitly
specified headings of the mission lie in [0, 360), the dead-reckoned heading
equals the waypoint's specified heading when present, and otherwise equals
the target heading computed at this waypoint when it required planar
movement, or remains the heading of the previous waypoint when it did not
(rather than the last target heading computed anywhere earlier in the
mission, as the original claim stated). -/
theorem c4_pose_tracking (ws : List Waypoint) (w : Waypoint)
    (hh : ∀ u ∈ ws ++ [w], ∀ a, u.heading = some a → 0 ≤ a ∧ a < 360) :
    ((runWps ⟨0, 0, 0, 0⟩ (ws ++ [w])).1.x = w.x ∧
     (runWps ⟨0, 0, 0, 0⟩ (ws ++ [w])).1.y = w.y ∧
     (runWps ⟨0, 0, 0, 0⟩ (ws ++ [w])).1.z = w.z) ∧
    (∀ a, w.heading = some a →
      (runWps ⟨0, 0, 0, 0⟩ (ws ++ [w])).1.heading = a) ∧
    (w.heading = none →
      ((w.x - (runWps ⟨0, 0, 0, 0⟩ ws).1.x ≠ 0 ∨
          w.y - (runWps ⟨0, 0, 0, 0⟩ ws).1.y ≠ 0) →
        (runWps ⟨0, 0, 0, 0⟩ (ws ++ [w])).1.heading =
          targetHeading (runWps ⟨0, 0, 0, 0⟩ ws).1 w) ∧
      (w.x - (runWps ⟨0, 0, 0, 0⟩ ws).1.x = 0 ∧
          w.y - (runWps ⟨0, 0, 0, 0⟩ ws).1.y = 0 →
        (runWps ⟨0, 0, 0, 0⟩ (ws ++ [w])).1.heading =
          (runWps ⟨0, 0, 0, 0⟩ ws).1.heading)) := by
  have hfst : (runWps ⟨0, 0, 0, 0⟩ (ws ++ [w])).1 =
      (step (runWps ⟨0, 0, 0, 0⟩ ws).1 w).1 := by
    rw [runWps_fst_append]
    rfl
  have hbounds := runWps_heading_bounds ws ⟨0, 0, 0, 0⟩ (by norm_num)
    (by norm_num) (fun u hu a ha => hh u (List.mem_append_left _ hu) a ha)
  refine ⟨?_, ?_, ?_⟩
  · rw [hfst]
    exact ⟨rfl, rfl, rfl⟩
  · intro a ha
    rw [hfst]
    show finalHeading (runWps ⟨0, 0, 0, 0⟩ ws).1 w = a
    unfold finalHeading
    rw [ha]
  · intro hnone
    constructor
    · intro hmv
      rw [hfst]
      show finalHeading (runWps ⟨0, 0, 0, 0⟩ ws).1 w =
        targetHeading (runWps ⟨0, 0, 0, 0⟩ ws).1 w
      unfold finalHeading
      rw [hnone]
      exact moveHeading_eq_target _ w hbounds.1 hbounds.2 hmv
    · rintro ⟨h1, h2⟩
      rw [hfst]
      show finalHeading (runWps ⟨0, 0, 0, 0⟩ ws).1 w =
        (runWps ⟨0, 0, 0, 0⟩ ws).1.heading
      unfold finalHeading
      rw [hnone]
      show moveHeading (runWps ⟨0, 0, 0, 0⟩ ws).1 w = _
      unfold moveHeading
      rw [if_neg (by push_neg; exact ⟨h1, h2⟩)]

/-- Witness for C4 on the one-waypoint mission to (80, 0, 100) with heading
90. -/
theorem c4_pose_tracking_witness :
    (∀ u ∈ ([] ++ [(⟨80, 0, 100, some 90, true⟩ : Waypoint)]), ∀ a : ℝ,
      u.heading = some a → 0 ≤ a ∧ a < 360) ∧
    ((runWps ⟨0, 0, 0, 0⟩
        ([] ++ [(⟨80, 0, 100, some 90, true⟩ : Waypoint)])).1.x = 80 ∧
     (runWps ⟨0, 0, 0, 0⟩
        ([] ++ [(⟨80, 0, 100, some 90, true⟩ : Waypoint)])).1.y = 0 ∧
     (runWps ⟨0, 0, 0, 0⟩
        ([] ++ [(⟨80, 0, 100, some 90, true⟩ : Waypoint)])).1.z = 100) ∧
    (∀ a : ℝ, some (90:ℝ) = some a →
      (runWps ⟨0, 0, 0, 0⟩
        ([] ++ [(⟨80, 0, 100, some 90, true⟩ : Waypoint)])).1.heading = a) := by
  have hhyp : ∀ u ∈ ([] ++ [(⟨80, 0, 100, some 90, true⟩ : Waypoint)]),
      ∀ a : ℝ, u.heading = some a → 0 ≤ a ∧ a < 360 := by
    intro u hu a ha
    simp only [List.nil_append, List.mem_singleton] at hu
    subst hu
    have ha2 : some (90:ℝ) = some a := ha
    rw [Option.some.injEq] at ha2
    subst ha2
    norm_num
  have h := c4_pose_tracking [] ⟨80, 0, 100, some 90, true⟩ hhyp
  exact ⟨hhyp, h.1, h.2.1⟩

lemma step_cx1 :
    step ⟨0, 0, 0, 0⟩ ⟨100, 0, 0, none, false⟩ =
      (⟨100, 0, 0, 0⟩, [Cmd.moveForward 100]) := by
  have ht : targetHeading ⟨0, 0, 0, 0⟩ ⟨100, 0, 0, none, false⟩ = 0 :=
    targetHeading_east _ _ (by norm_num) (by norm_num)
  have hr : signedRotation (0:ℝ) 0 = 0 := by
    simpa using signedRotation_small 0 0 (by norm_num) (by norm_num)
  have hsq : Real.sqrt (10000:ℝ) = 100 :=
    sqrt_eval _ _ (by norm_num) (by norm_num)
  have hp : pytrunc (100:ℝ) = 100 :=
    pytrunc_num _ _ (by norm_num) (by norm_num) (by norm_num)
  norm_num [step, heightCmds, moveCmds, moveHeading, headingCmds, finalHeading,
    rotCmds, ht, hr, hsq, hp]

lemma step_cx2 :
    step ⟨100, 0, 0, 0⟩ ⟨100, 0, 0, some 45, false⟩ =
      (⟨100, 0, 0, 45⟩, [Cmd.rotateCW 45]) := by
  have hr : signedRotation (0:ℝ) 45 = 45 := by
    simpa using signedRotation_small 0 45 (by norm_num) (by norm_num)
  have hp : pytrunc (45:ℝ) = 45 :=
    pytrunc_num _ _ (by norm_num) (by norm_num) (by norm_num)
  norm_num [step, heightCmds, moveCmds, moveHeading, headingCmds, finalHeading,
    rotCmdsNoGuard, hr, hp]

lemma step_cx3 :
    step ⟨100, 0, 0, 45⟩ ⟨100, 0, 0, none, false⟩ =
      (⟨100, 0, 0, 45⟩, []) := by
  norm_num [step, heightCmds, moveCmds, moveHeading, headingCmds, finalHeading]

/-- C4 counterexample: in the mission that moves to (100, 0, 0) (computing
target heading 0), then sets heading 45 without moving, then revisits the
same spot, the final dead-reckoned heading is 45 while the last computed
target heading is 0. -/
theorem c4_last_target_counterexample :
    (runWps ⟨0, 0, 0, 0⟩
      [⟨100, 0, 0, none, false⟩, ⟨100, 0, 0, some 45, false⟩,
       ⟨100, 0, 0, none, false⟩]).1.heading = 45 ∧
    computedTargets ⟨0, 0, 0, 0⟩
      [⟨100, 0, 0, none, false⟩, ⟨100, 0, 0, some 45, false⟩,
       ⟨100, 0, 0, none, false⟩] = [0] ∧
    (45:ℝ) ≠ 0 := by
  refine ⟨?_, ?_, by norm_num⟩
  · simp [runWps, step_cx1, step_cx2, step_cx3]
  · have ht : targetHeading ⟨0, 0, 0, 0⟩ ⟨100, 0, 0, none, false⟩ = 0 :=
      targetHeading_east _ _ (by norm_num) (by norm_num)
    norm_num [computedTargets, step_cx1, step_cx2, ht]

/- ----------------------------------------------------------------
   Orbital flight generator, src/missions/simulator/grid_flight_sim.py
   lines 223-289 (grid_flight.py lines 283-354 is identical in structure,
   adding only a height adjustment before the orbit).
   ---------------------------------------------------------------- -/

/-- Arc travel distance per orbital step, grid_flight_sim.py line 260:
2 * pi * radius * (angle_step / 360) with angle_step = 360 / points. -/
noncomputable def arcDistance (radius : ℤ) (points : ℕ) : ℝ :=
  2 * Real.pi * (radius : ℝ) * ((360 / (points : ℝ)) / 360)

/-- Commands of the orbital mission, grid_flight_sim.py lines 223-289:
takeoff, outward translate of the radius, a 180-degree clockwise turn to face
the center, a first photo, then for each of the remaining points - 1 sample
points a 90-degree counter-clockwise tangent turn, a forward travel of
int(arc_distance), a 90-degree clockwise turn back to the center and a
photo; finally a 180-degree counter-clockwise turn, the return translate of
the radius, and landing. -/
noncomputable def orbitalCmds (radius : ℤ) (points : ℕ) : List Cmd :=
  [Cmd.takeoff, Cmd.moveForward radius, Cmd.rotateCW 180, Cmd.photo] ++
  ((List.range (points - 1)).flatMap fun _ =>
    [Cmd.rotateCCW 90, Cmd.moveForward (pytrunc (arcDistance radius points)),
     Cmd.rotateCW 90, Cmd.photo]) ++
  [Cmd.rotateCCW 180, Cmd.moveForward radius, Cmd.land]

lemma arcDistance_80_6 : arcDistance 80 6 = 80 * Real.pi / 3 := by
  unfold arcDistance
  push_cast
  ring

lemma pytrunc_arc_80_6 : pytrunc (arcDistance 80 6) = 83 := by
  rw [arcDistance_80_6]
  refine pytrunc_num _ 83 ?_ ?_ ?_
  · nlinarith [Real.pi_gt_d2]
  · push_cast
    nlinarith [Real.pi_gt_d2]
  · push_cast
    nlinarith [Real.pi_lt_d2]

/-- C8 (amended): the orbital mission with radius 80 and 6 points issues
exactly one initial outward translate of the radius, one initial 180-degree
clockwise rotation, 6 photo captures, and for each of the remaining 5 sample
points one 90-degree tangent rotation, one forward travel of
int(2 * pi * 80 * (60 / 360)) = 83 cm (the truncated arc length, not the
exact arc length), and one 90-degree re-center rotation, before the return
leg and landing. -/
theorem c8_orbital_commands :
    orbitalCmds 80 6 =
      [Cmd.takeoff, Cmd.moveForward 80, Cmd.rotateCW 180, Cmd.photo,
       Cmd.rotateCCW 90, Cmd.moveForward 83, Cmd.rotateCW 90, Cmd.photo,
       Cmd.rotateCCW 90, Cmd.moveForward 83, Cmd.rotateCW 90, Cmd.photo,
       Cmd.rotateCCW 90, Cmd.moveForward 83, Cmd.rotateCW 90, Cmd.photo,
       Cmd.rotateCCW 90, Cmd.moveForward 83, Cmd.rotateCW 90, Cmd.photo,
       Cmd.rotateCCW 90, Cmd.moveForward 83, Cmd.rotateCW 90, Cmd.photo,
       Cmd.rotateCCW 180, Cmd.moveForward 80, Cmd.land] ∧
    cmdPhotoCount (orbitalCmds 80 6) = 6 ∧
    countForwardOf 83 (orbitalCmds 80 6) = 5 ∧
    countForwardOf 80 (orbitalCmds 80 6) = 2 ∧
    pytrunc (arcDistance 80 6) = 83 := by
  have hl : orbitalCmds 80 6 =
      [Cmd.takeoff, Cmd.moveForward 80, Cmd.rotateCW 180, Cmd.photo,
       Cmd.rotateCCW 90, Cmd.moveForward 83, Cmd.rotateCW 90, Cmd.photo,
       Cmd.rotateCCW 90, Cmd.moveForward 83, Cmd.rotateCW 90, Cmd.photo,
       Cmd.rotateCCW 90, Cmd.moveForward 83, Cmd.rotateCW 90, Cmd.photo,
       Cmd.rotateCCW 90, Cmd.moveForward 83, Cmd.rotateCW 90, Cmd.photo,
       Cmd.rotateCCW 90, Cmd.moveForward 83, Cmd.rotateCW 90, Cmd.photo,
       Cmd.rotateCCW 180, Cmd.moveForward 80, Cmd.land] := by
    unfold orbitalCmds
    simp only [pytrunc_arc_80_6]
    rfl
  refine ⟨hl, ?_, ?_, ?_, pytrunc_arc_80_6⟩ <;> rw [hl] <;> rfl

/-- C8 counterexample: the issued travel command is the truncation, 83 cm,
which differs from the exact arc length 2 * pi * 80 * ((360 / 6) / 360) =
80 * pi / 3 named by the claim. -/
theorem c8_arc_counterexample :
    pytrunc (arcDistance 80 6) = 83 ∧ (83 : ℝ) ≠ arcDistance 80 6 := by
  refine ⟨pytrunc_arc_80_6, ?_⟩
  rw [arcDistance_80_6]
  intro h
  nlinarith [Real.pi_gt_d2]

/-- C10: an empty waypoint list makes execute_mission return False before
any connection, takeoff or command, leaving the planner untouched. -/
theorem c10_empty_mission (p : Planner) (battery minBattery : ℤ)
    (h : p.waypoints = []) :
    executeMission p battery minBattery = ⟨false, [], p⟩ := by
  unfold executeMission
  rw [h]

/-- Witness for C10 on a concrete empty planner. -/
theorem c10_empty_mission_witness :
    executeMission ⟨[], true, 0, false⟩ 50 30 =
      ⟨false, [], ⟨[], true, 0, false⟩⟩ :=
  c10_empty_mission ⟨[], true, 0, false⟩ 50 30 rfl

end Drone
